import Mathlib

/-!
Verification of the `beackup` periodic database-backup tool (src/main.go)
against its natural-language specification.

The Go program is shallowly embedded: each Go function relevant to the
claims becomes a Lean definition operating on explicit inputs (clock
readings, directory listings, external-process results), so that the
control flow and data flow of the source are reproduced faithfully and
every definition is executable.
-/

namespace Beackup

/-- Embeds the Go `Config` struct (flattened): database connection
parameters, backup settings and logging settings.  `frequency` models
`time.Duration` (an int64 nanosecond count) as `Int`; `port` and
`retention` model Go `int`. -/
structure Config where
  host : String
  port : Int
  name : String
  user : String
  password : String
  outputDir : String
  frequency : Int
  retention : Int
  format : String
  logLevel : String
  logFilePath : String
deriving Repr, DecidableEq

/-- Embeds the default-setting block of `loadConfig` (src/main.go lines
68-80): after YAML unmarshalling (which leaves absent fields at their
zero values `""` / `0`), empty host becomes "localhost", port 0 becomes
5432, empty format becomes "custom" and retention 0 becomes 7.  No
default is applied to `frequency`. -/
def applyDefaults (c : Config) : Config :=
  { c with
    host := if c.host = "" then "localhost" else c.host
    port := if c.port = 0 then (5432 : Int) else c.port
    format := if c.format = "" then "custom" else c.format
    retention := if c.retention = 0 then (7 : Int) else c.retention }

/-- A Go `time.Time` instant, abstracted to what the sweeper uses: an
absolute calendar-day number and the time of day in seconds.
`AddDate(0, 0, d)` is calendar-date arithmetic, so it shifts the day
number and keeps the time of day. -/
structure GoTime where
  day : Int
  sec : Int
deriving Repr, DecidableEq

/-- Embeds `time.Time.Before`: strict chronological comparison. -/
def GoTime.before (t u : GoTime) : Bool :=
  decide (t.day < u.day ∨ (t.day = u.day ∧ t.sec < u.sec))

/-- Embeds `time.Time.AddDate(0, 0, d)`: add `d` calendar days (negative
to go into the past), keeping the time of day.  This is calendar-date
arithmetic, not a fixed multiple of 24 h. -/
def GoTime.addDate (t : GoTime) (d : Int) : GoTime :=
  { t with day := t.day + d }

/-- One entry of `os.ReadDir`'s result, together with the outcomes the
filesystem would give the sweeper for it: whether `entry.Info()`
succeeds (`infoOk`), the modification time it reports, and whether
`os.Remove` on it would succeed (`removeOk`). -/
structure DirEntry where
  name : String
  isDir : Bool
  infoOk : Bool
  modTime : GoTime
  removeOk : Bool
deriving Repr, DecidableEq

/-- The observable effects of one sweep: the entries on which
`os.Remove` was invoked (in visiting order), those actually removed,
and the log lines emitted. -/
structure SweepResult where
  attempted : List DirEntry
  removed : List DirEntry
  logs : List String
deriving Repr, DecidableEq

/-- Embeds `filepath.Join` for the simple case the program uses (a
non-empty directory joined with a file name). -/
def filepathJoin (dir file : String) : String :=
  dir ++ "/" ++ file

/-- Embeds the loop body of `cleanupOldBackups` (src/main.go lines
220-238): for each entry in order, skip directories, skip entries whose
`Info()` fails, and for the rest attempt removal exactly when the
modification time is strictly before the cutoff; a removal failure is
logged and the loop continues. -/
def sweepEntries (outDir : String) (cutoff : GoTime) : List DirEntry → SweepResult
  | [] => ⟨[], [], []⟩
  | e :: es =>
    let rest := sweepEntries outDir cutoff es
    if e.isDir then rest
    else if !e.infoOk then rest
    else if e.modTime.before cutoff then
      let path := filepathJoin outDir e.name
      if e.removeOk then
        ⟨e :: rest.attempted, e :: rest.removed,
          ("Removed old backup: " ++ path) :: rest.logs⟩
      else
        ⟨e :: rest.attempted, rest.removed,
          ("Failed to remove old backup " ++ path) :: rest.logs⟩
    else rest

/-- The condition under which the sweep loop reaches the `os.Remove`
call for an entry: not a directory, `Info()` succeeded, and the
modification time is strictly before the cutoff. -/
def eligible (cutoff : GoTime) (e : DirEntry) : Bool :=
  !e.isDir && e.infoOk && e.modTime.before cutoff

/-- The log line the sweep emits for an entry it attempts to remove. -/
def logLine (outDir : String) (e : DirEntry) : String :=
  if e.removeOk then "Removed old backup: " ++ filepathJoin outDir e.name
  else "Failed to remove old backup " ++ filepathJoin outDir e.name

/-- Embeds `cleanupOldBackups` (src/main.go lines 212-241): read the
output directory (`none` models an `os.ReadDir` error, returned as an
error before any deletion), compute the cutoff as
`time.Now().AddDate(0, 0, -retention)`, then sweep the entries. -/
def cleanupOldBackups (outDir : String) (retention : Int) (now : GoTime)
    (listing : Option (List DirEntry)) : Except String SweepResult :=
  match listing with
  | none => .error "failed to read backup directory"
  | some entries => .ok (sweepEntries outDir (now.addDate (-retention)) entries)

/-- Embeds the extension switch of `performBackup` (src/main.go lines
137-146). -/
def extensionOf (format : String) : String :=
  if format = "plain" then ".sql"
  else if format = "tar" then ".tar"
  else if format = "directory" then ""
  else ".dump"

/-- Embeds the format-flag switch of `buildPgDumpCommand` (src/main.go
lines 190-199). -/
def formatFlag (format : String) : String :=
  if format = "plain" then "--format=plain"
  else if format = "tar" then "--format=tar"
  else if format = "directory" then "--format=directory"
  else "--format=custom"

/-- Embeds `buildPgDumpCommand` (src/main.go lines 178-208): the full
argument vector of the external command (element 0 is the program
name).  Both branches of the source's final `if` append the same
`--file <path>` pair. -/
def buildPgDumpCommand (c : Config) (outputPath : String) : List String :=
  ["pg_dump",
   "-h", c.host,
   "-p", toString c.port,
   "-U", c.user,
   "-d", c.name,
   "--verbose",
   "--no-password"]
  ++ [formatFlag c.format]
  ++ ["--file", outputPath]

/-- A broken-down wall-clock instant, as `time.Now()` hands it to the
Go reference-layout formatter `"2006-01-02_15-04-05"`. -/
structure DateTime where
  year : Nat
  month : Nat
  day : Nat
  hour : Nat
  minute : Nat
  second : Nat
deriving Repr, DecidableEq

/-- Ranges of the fields of a real wall-clock instant in the years the
4-digit year format covers. -/
def DateTime.Valid (t : DateTime) : Prop :=
  t.year ≤ 9999 ∧ 1 ≤ t.month ∧ t.month ≤ 12 ∧ 1 ≤ t.day ∧ t.day ≤ 31 ∧
    t.hour ≤ 23 ∧ t.minute ≤ 59 ∧ t.second ≤ 59

instance (t : DateTime) : Decidable t.Valid := by
  unfold DateTime.Valid; infer_instance

/-- Strict chronological order of two broken-down instants. -/
def DateTime.chronLT (t u : DateTime) : Prop :=
  t.year < u.year ∨ (t.year = u.year ∧
    (t.month < u.month ∨ (t.month = u.month ∧
      (t.day < u.day ∨ (t.day = u.day ∧
        (t.hour < u.hour ∨ (t.hour = u.hour ∧
          (t.minute < u.minute ∨ (t.minute = u.minute ∧
            t.second < u.second)))))))))

instance (t u : DateTime) : Decidable (t.chronLT u) := by
  unfold DateTime.chronLT; infer_instance

/-- Two-digit zero-padded decimal rendering, as Go's `"01"`, `"02"`,
`"15"`, `"04"`, `"05"` layout components produce for field values below
100. -/
def pad2 (n : Nat) : List Char :=
  [Nat.digitChar (n / 10), Nat.digitChar (n % 10)]

/-- Four-digit zero-padded decimal rendering, as Go's `"2006"` layout
component produces for years 0-9999. -/
def pad4 (n : Nat) : List Char :=
  pad2 (n / 100) ++ pad2 (n % 100)

/-- The character sequence of
`time.Now().Format("2006-01-02_15-04-05")` (src/main.go line 133). -/
def timestampChars (t : DateTime) : List Char :=
  pad4 t.year ++ ('-' :: (pad2 t.month ++ ('-' :: (pad2 t.day ++
    ('_' :: (pad2 t.hour ++ ('-' :: (pad2 t.minute ++
      ('-' :: pad2 t.second)))))))))

/-- The timestamp as a string. -/
def goTimestamp (t : DateTime) : String :=
  String.mk (timestampChars t)

/-- Embeds the filename construction of `performBackup` (src/main.go
line 148): `fmt.Sprintf("%s_%s%s", name, timestamp, extension)`. -/
def backupFilename (dbName : String) (t : DateTime) (ext : String) : String :=
  dbName ++ "_" ++ goTimestamp t ++ ext

/-- The outcome of running the external dump command
(`cmd.CombinedOutput()`): exit status and captured combined output. -/
structure DumpExec where
  ok : Bool
  output : String
deriving Repr, DecidableEq

/-- Everything `performBackup` does that the environment can observe. -/
structure PerformResult where
  args : List String
  env : List String
  outputPath : String
  cleanupInvoked : Bool
  sweep : Option (Except String SweepResult)
  errMsg : Option String
deriving Repr

/-- Embeds `performBackup` (src/main.go lines 129-175).  Inputs that the
Go code reads from the world are explicit: `osEnv` is `os.Environ()`,
`nowFmt` the clock reading used for the filename, `dump` the external
command's outcome, `nowSweep` the clock reading taken inside
`cleanupOldBackups`, and `listing` the directory listing (or a read
error).  The function returns the error `performBackup` itself returns
(`errMsg`); note the source returns early on a dump failure, before
`cleanupOldBackups` is reached, and returns `nil` even when the cleanup
errors (it only logs a warning then). -/
def performBackup (c : Config) (osEnv : List String) (nowFmt : DateTime)
    (dump : DumpExec) (nowSweep : GoTime) (listing : Option (List DirEntry)) :
    PerformResult :=
  let extension := extensionOf c.format
  let filename := backupFilename c.name nowFmt extension
  let outputPath := filepathJoin c.outputDir filename
  let args := buildPgDumpCommand c outputPath
  let env := osEnv ++ ["PGPASSWORD=" ++ c.password]
  if dump.ok then
    { args := args, env := env, outputPath := outputPath,
      cleanupInvoked := true,
      sweep := some (cleanupOldBackups c.outputDir c.retention nowSweep listing),
      errMsg := none }
  else
    { args := args, env := env, outputPath := outputPath,
      cleanupInvoked := false, sweep := none,
      errMsg := some ("pg_dump failed, output: " ++ dump.output) }

/-- Observable events of the `Start` loop, in order of occurrence.
`cycleOk` records whether that cycle's `performBackup` returned `nil`
(a `false` is logged by the loop, which continues). -/
inductive StartEvent where
  | ensuredDir : StartEvent
  | initialCycle (cycleOk : Bool) : StartEvent
  | tickCycle (i : Nat) (cycleOk : Bool) : StartEvent
deriving Repr, DecidableEq

/-- How a run of `Start` ends, as far as the model observes it. -/
inductive StartOutcome where
  | errored (msg : String) : StartOutcome
  | panicked : StartOutcome
  | running : StartOutcome
deriving Repr, DecidableEq

/-- Trace of one (finitely observed) run of `Start`. -/
structure StartResult where
  events : List StartEvent
  outcome : StartOutcome
deriving Repr, DecidableEq

/-- Tick cycles numbered from `i`. -/
def tickEvents : Nat → List Bool → List StartEvent
  | _, [] => []
  | i, b :: bs => .tickCycle i b :: tickEvents (i + 1) bs

/-- Embeds `Start` (src/main.go lines 102-126).  `mkdirOk` is the
outcome of `os.MkdirAll` on the output directory; on failure `Start`
returns an error at once.  Then one backup cycle runs immediately
(`initOk` its outcome, logged if failed).  Then `time.NewTicker`
panics when the configured frequency is not positive (no default is
ever applied to it); otherwise the loop body runs once per tick,
forever — `cycles` lists the outcomes of the ticks observed, each
failure logged, none stopping the loop. -/
def start (c : Config) (mkdirOk : Bool) (initOk : Bool) (cycles : List Bool) :
    StartResult :=
  if !mkdirOk then
    { events := [], outcome := .errored "failed to create output directory" }
  else if c.frequency ≤ 0 then
    { events := [.ensuredDir, .initialCycle initOk], outcome := .panicked }
  else
    { events := .ensuredDir :: .initialCycle initOk :: tickEvents 0 cycles,
      outcome := .running }

/-! ## Characterisation of the sweep loop -/

/-- The sweep visits the entries in order; it attempts removal exactly
on the eligible ones, removes those whose removal succeeds, and logs one
line per attempt. -/
theorem sweepEntries_eq (outDir : String) (cutoff : GoTime)
    (entries : List DirEntry) :
    sweepEntries outDir cutoff entries =
      ⟨entries.filter (eligible cutoff),
       entries.filter (fun e => eligible cutoff e && e.removeOk),
       (entries.filter (eligible cutoff)).map (logLine outDir)⟩ := by
  induction entries with
  | nil => rfl
  | cons e es ih =>
    by_cases hd : e.isDir = true <;> by_cases hi : e.infoOk = true <;>
      by_cases hb : e.modTime.before cutoff = true <;>
      by_cases hr : e.removeOk = true <;>
      simp [sweepEntries, ih, eligible, logLine, List.filter_cons, hd, hi, hb, hr]

/-! ## Claim C2: strictly-before retention semantics -/

/-- Claim C2: for every retention value `r` and every non-directory
entry of the output directory (whose metadata is readable), the sweep
attempts to delete the entry if and only if its modification time is
strictly before the cutoff, where the cutoff is the current time minus
`r` calendar days (`AddDate(0, 0, -r)`, calendar-date arithmetic). -/
theorem sweep_deletes_iff_strictly_older (outDir : String) (r : Int)
    (now : GoTime) (entries : List DirEntry) (s : SweepResult) (e : DirEntry)
    (hok : cleanupOldBackups outDir r now (some entries) = .ok s)
    (hd : e.isDir = false) (hi : e.infoOk = true) :
    e ∈ s.attempted ↔ e ∈ entries ∧ e.modTime.before (now.addDate (-r)) = true := by
  have hs : s = sweepEntries outDir (now.addDate (-r)) entries := by
    simpa [cleanupOldBackups] using hok.symm
  subst hs
  rw [sweepEntries_eq]
  simp [List.mem_filter, eligible, hd, hi]

/-- Claim C2 witness: with retention 7 and the clock at day 1000, an
artifact exactly 8 days old (day 992) is swept, one exactly 7 days old
(equal to the cutoff, day 993) is kept, and one exactly 6 days old
(day 994) is kept. -/
theorem sweep_deletes_iff_strictly_older_witness :
    (⟨"a.dump", false, true, ⟨992, 0⟩, true⟩ : DirEntry) ∈
      (sweepEntries "/backups" (GoTime.addDate ⟨1000, 0⟩ (-7))
        [⟨"a.dump", false, true, ⟨992, 0⟩, true⟩,
         ⟨"b.dump", false, true, ⟨993, 0⟩, true⟩,
         ⟨"c.dump", false, true, ⟨994, 0⟩, true⟩]).attempted ∧
    (⟨"b.dump", false, true, ⟨993, 0⟩, true⟩ : DirEntry) ∉
      (sweepEntries "/backups" (GoTime.addDate ⟨1000, 0⟩ (-7))
        [⟨"a.dump", false, true, ⟨992, 0⟩, true⟩,
         ⟨"b.dump", false, true, ⟨993, 0⟩, true⟩,
         ⟨"c.dump", false, true, ⟨994, 0⟩, true⟩]).attempted ∧
    (⟨"c.dump", false, true, ⟨994, 0⟩, true⟩ : DirEntry) ∉
      (sweepEntries "/backups" (GoTime.addDate ⟨1000, 0⟩ (-7))
        [⟨"a.dump", false, true, ⟨992, 0⟩, true⟩,
         ⟨"b.dump", false, true, ⟨993, 0⟩, true⟩,
         ⟨"c.dump", false, true, ⟨994, 0⟩, true⟩]).attempted := by
  refine ⟨?_, ?_, ?_⟩
  · exact (sweep_deletes_iff_strictly_older "/backups" 7 ⟨1000, 0⟩ _ _ _
      rfl rfl rfl).mpr ⟨by decide, by decide⟩
  · intro hmem
    exact absurd ((sweep_deletes_iff_strictly_older "/backups" 7 ⟨1000, 0⟩ _ _ _
      rfl rfl rfl).mp hmem).2 (by decide)
  · intro hmem
    exact absurd ((sweep_deletes_iff_strictly_older "/backups" 7 ⟨1000, 0⟩ _ _ _
      rfl rfl rfl).mp hmem).2 (by decide)

/-! ## Claim C5: directories are never swept -/

/-- Claim C5: the retention sweeper never deletes a directory entry of
the output directory, regardless of its age: it neither attempts nor
performs a removal on any entry with `IsDir()` set. -/
theorem sweep_never_deletes_directories (outDir : String) (cutoff : GoTime)
    (entries : List DirEntry) (e : DirEntry) (hd : e.isDir = true) :
    e ∉ (sweepEntries outDir cutoff entries).attempted ∧
    e ∉ (sweepEntries outDir cutoff entries).removed := by
  rw [sweepEntries_eq]
  constructor <;> intro hmem <;>
    simp [List.mem_filter, eligible, hd] at hmem

/-- Claim C5 witness: a directory-format artifact arbitrarily far in
the past is not touched by the sweep. -/
theorem sweep_never_deletes_directories_witness :
    (⟨"db_dir", true, true, ⟨0, 0⟩, true⟩ : DirEntry) ∉
      (sweepEntries "/backups" ⟨1000000, 0⟩
        [⟨"db_dir", true, true, ⟨0, 0⟩, true⟩]).attempted ∧
    (⟨"db_dir", true, true, ⟨0, 0⟩, true⟩ : DirEntry) ∉
      (sweepEntries "/backups" ⟨1000000, 0⟩
        [⟨"db_dir", true, true, ⟨0, 0⟩, true⟩]).removed :=
  sweep_never_deletes_directories "/backups" ⟨1000000, 0⟩ _ _ rfl

/-! ## Claim C6: per-item failures do not abort the sweep -/

/-- Claim C6: a failure to delete one eligible entry is logged
individually and does not abort the sweep: whatever entries (including
failing ones) precede it, an eligible entry is still visited and a
deletion is attempted for it, every eligible entry after it is also
attempted, and a failed attempt leaves its own log line. -/
theorem sweep_failure_does_not_abort (outDir : String) (cutoff : GoTime)
    (pre post : List DirEntry) (e : DirEntry)
    (he : eligible cutoff e = true) :
    e ∈ (sweepEntries outDir cutoff (pre ++ e :: post)).attempted ∧
    (∀ e2 ∈ post, eligible cutoff e2 = true →
      e2 ∈ (sweepEntries outDir cutoff (pre ++ e :: post)).attempted) ∧
    (e.removeOk = false →
      logLine outDir e ∈ (sweepEntries outDir cutoff (pre ++ e :: post)).logs) := by
  rw [sweepEntries_eq]
  refine ⟨?_, ?_, ?_⟩
  · exact List.mem_filter.mpr ⟨by simp, he⟩
  · intro e2 h2 he2
    exact List.mem_filter.mpr ⟨by simp [h2], he2⟩
  · intro _
    exact List.mem_map.mpr ⟨e, List.mem_filter.mpr ⟨by simp, he⟩, rfl⟩

/-- Claim C6 witness: an eligible entry whose removal fails, preceded
by another failing eligible entry, is still attempted, the eligible
entry after it is still attempted, and the failure is logged. -/
theorem sweep_failure_does_not_abort_witness :
    eligible ⟨100, 0⟩ ⟨"y.dump", false, true, ⟨1, 0⟩, false⟩ = true ∧
    ((⟨"y.dump", false, true, ⟨1, 0⟩, false⟩ : DirEntry) ∈
      (sweepEntries "/backups" ⟨100, 0⟩
        ([⟨"x.dump", false, true, ⟨0, 0⟩, false⟩] ++
          (⟨"y.dump", false, true, ⟨1, 0⟩, false⟩ : DirEntry) ::
            [⟨"z.dump", false, true, ⟨2, 0⟩, true⟩])).attempted ∧
    (∀ e2 ∈ [(⟨"z.dump", false, true, ⟨2, 0⟩, true⟩ : DirEntry)],
      eligible ⟨100, 0⟩ e2 = true →
      e2 ∈ (sweepEntries "/backups" ⟨100, 0⟩
        ([⟨"x.dump", false, true, ⟨0, 0⟩, false⟩] ++
          (⟨"y.dump", false, true, ⟨1, 0⟩, false⟩ : DirEntry) ::
            [⟨"z.dump", false, true, ⟨2, 0⟩, true⟩])).attempted) ∧
    ((⟨"y.dump", false, true, ⟨1, 0⟩, false⟩ : DirEntry).removeOk = false →
      logLine "/backups" ⟨"y.dump", false, true, ⟨1, 0⟩, false⟩ ∈
        (sweepEntries "/backups" ⟨100, 0⟩
          ([⟨"x.dump", false, true, ⟨0, 0⟩, false⟩] ++
            (⟨"y.dump", false, true, ⟨1, 0⟩, false⟩ : DirEntry) ::
              [⟨"z.dump", false, true, ⟨2, 0⟩, true⟩])).logs)) :=
  ⟨by decide, sweep_failure_does_not_abort "/backups" ⟨100, 0⟩
    [⟨"x.dump", false, true, ⟨0, 0⟩, false⟩]
    [⟨"z.dump", false, true, ⟨2, 0⟩, true⟩]
    ⟨"y.dump", false, true, ⟨1, 0⟩, false⟩ (by decide)⟩

/-! ## Claim C3: password only via environment variable -/

/-- Claim C3: for every configuration, the constructed dump command's
argument list does not depend on the database password (so the password
never appears in it by construction), and the password reaches the
child process exclusively as `PGPASSWORD` appended to the invoking
process's environment. -/
theorem password_only_in_env (c : Config) (p1 p2 path : String)
    (osEnv : List String) (nowFmt : DateTime) (dump : DumpExec)
    (nowSweep : GoTime) (listing : Option (List DirEntry)) :
    buildPgDumpCommand { c with password := p1 } path =
      buildPgDumpCommand { c with password := p2 } path ∧
    (performBackup c osEnv nowFmt dump nowSweep listing).env =
      osEnv ++ ["PGPASSWORD=" ++ c.password] ∧
    (performBackup c osEnv nowFmt dump nowSweep listing).args =
      buildPgDumpCommand c
        (filepathJoin c.outputDir
          (backupFilename c.name nowFmt (extensionOf c.format))) := by
  refine ⟨rfl, ?_, ?_⟩ <;> cases h : dump.ok <;> simp [performBackup, h]

/-! ## Claim C4: extension and format-flag mapping -/

/-- Claim C4: artifact naming yields exactly `.sql` for `plain`, `.tar`
for `tar`, the empty extension for `directory`, and `.dump` for
`custom` or any unrecognized value; the dump command's format flag is
correspondingly `--format=plain` / `--format=tar` / `--format=directory`
and `--format=custom` for `custom` or any unrecognized value. -/
theorem extension_and_format_mapping :
    extensionOf "plain" = ".sql" ∧
    extensionOf "tar" = ".tar" ∧
    extensionOf "directory" = "" ∧
    extensionOf "custom" = ".dump" ∧
    formatFlag "plain" = "--format=plain" ∧
    formatFlag "tar" = "--format=tar" ∧
    formatFlag "directory" = "--format=directory" ∧
    formatFlag "custom" = "--format=custom" ∧
    ∀ fmt : String, fmt ≠ "plain" → fmt ≠ "tar" → fmt ≠ "directory" →
      extensionOf fmt = ".dump" ∧ formatFlag fmt = "--format=custom" := by
  refine ⟨by decide, by decide, by decide, by decide, by decide, by decide,
    by decide, by decide, ?_⟩
  intro fmt h1 h2 h3
  exact ⟨by simp [extensionOf, h1, h2, h3], by simp [formatFlag, h1, h2, h3]⟩

/-- Claim C4 witness: the unrecognized format value "weird" falls back
to the custom format and the `.dump` extension. -/
theorem extension_and_format_mapping_witness :
    extensionOf "weird" = ".dump" ∧ formatFlag "weird" = "--format=custom" :=
  extension_and_format_mapping.2.2.2.2.2.2.2.2 "weird"
    (by decide) (by decide) (by decide)

/-! ## Claim C10: zero retention and zero port are overridden -/

/-- Claim C10: loading replaces an explicit `retention_days: 0` with
the default 7 — exactly what an omitted field (zero value) receives —
so after loading the retention is never 0 and a zero-day retention
window cannot be configured; likewise an explicit port 0 becomes
5432. -/
theorem zero_retention_indistinguishable (c : Config) :
    (c.retention = 0 →
      applyDefaults c = applyDefaults { c with retention := (7 : Int) }) ∧
    (applyDefaults c).retention ≠ 0 ∧
    (c.retention = 0 → (applyDefaults c).retention = 7) ∧
    (c.port = 0 → (applyDefaults c).port = 5432) := by
  refine ⟨?_, ?_, ?_, ?_⟩
  · intro h; simp [applyDefaults, h]
  · by_cases h : c.retention = 0 <;> simp [applyDefaults, h]
  · intro h; simp [applyDefaults, h]
  · intro h; simp [applyDefaults, h]

/-- Claim C10 witness: a configuration with explicit retention 0 and
port 0 loads with retention 7 and port 5432. -/
theorem zero_retention_indistinguishable_witness :
    ((⟨"h", 0, "db", "u", "pw", "/backups", 3600, 0, "custom", "", ""⟩ :
        Config).retention = 0 →
      (applyDefaults ⟨"h", 0, "db", "u", "pw", "/backups", 3600, 0, "custom", "", ""⟩).retention = 7) ∧
    ((⟨"h", 0, "db", "u", "pw", "/backups", 3600, 0, "custom", "", ""⟩ :
        Config).port = 0 →
      (applyDefaults ⟨"h", 0, "db", "u", "pw", "/backups", 3600, 0, "custom", "", ""⟩).port = 5432) :=
  ⟨fun _ => (zero_retention_indistinguishable _).2.2.1 rfl,
   fun _ => (zero_retention_indistinguishable _).2.2.2 rfl⟩

/-! ## Claim C1: the sweep does NOT run after a failed dump -/

/-- Claim C1 counterexample: in a cycle whose dump invocation fails,
`performBackup` returns before `cleanupOldBackups` is reached, so the
retention sweeper is not invoked in that cycle — refuting the claim
that the sweeper runs regardless of the dump's outcome. -/
theorem sweep_skipped_on_failed_dump_counterexample :
    (performBackup
      ⟨"localhost", 5432, "db", "u", "pw", "/backups", 3600, 7, "custom", "", ""⟩
      [] ⟨2024, 1, 2, 3, 4, 5⟩ ⟨false, "connection refused"⟩ ⟨19724, 0⟩
      (some [])).cleanupInvoked = false := rfl

/-- Claim C1 (amended): the retention sweeper is invoked in a cycle if
and only if the dump invocation succeeded; a failing dump makes
`performBackup` return an error (which the scheduler loop logs,
continuing) and skips the sweep for that cycle. -/
theorem sweep_invoked_iff_dump_ok (c : Config) (osEnv : List String)
    (nowFmt : DateTime) (dump : DumpExec) (nowSweep : GoTime)
    (listing : Option (List DirEntry)) :
    (performBackup c osEnv nowFmt dump nowSweep listing).cleanupInvoked =
      dump.ok ∧
    (performBackup c osEnv nowFmt dump nowSweep listing).errMsg.isNone =
      dump.ok := by
  cases h : dump.ok <;> simp [performBackup, h]

/-! ## Claim C8: scheduler loop structure -/

/-- Claim C8: `Start` first ensures the output directory exists and
aborts with an error exactly when that creation fails (running no
cycle); otherwise, with a positive interval, it performs one
backup-and-sweep cycle immediately, before any tick, and then one cycle
per tick — each cycle's failure (`false` outcome) is logged and stops
neither the loop nor later cycles. -/
theorem start_loop_structure (c : Config) (mkdirOk initOk : Bool)
    (cycles : List Bool) (hm : mkdirOk = true) (hf : 0 < c.frequency) :
    (start c mkdirOk initOk cycles).events =
      .ensuredDir :: .initialCycle initOk :: tickEvents 0 cycles ∧
    (start c mkdirOk initOk cycles).outcome = .running ∧
    (start c false initOk cycles).events = [] ∧
    (start c false initOk cycles).outcome =
      .errored "failed to create output directory" := by
  subst hm
  have hnot : ¬c.frequency ≤ 0 := not_le.mpr hf
  refine ⟨?_, ?_, rfl, rfl⟩ <;> simp [start, hnot]

/-- Claim C8 witness: with a 3600-unit interval, a failing initial
cycle and a failing first tick, the loop still runs every cycle in
order. -/
theorem start_loop_structure_witness :
    (start ⟨"h", 5432, "db", "u", "pw", "/backups", 3600, 7, "custom", "", ""⟩
        true false [false, true]).events =
      .ensuredDir :: .initialCycle false :: tickEvents 0 [false, true] ∧
    (start ⟨"h", 5432, "db", "u", "pw", "/backups", 3600, 7, "custom", "", ""⟩
        true false [false, true]).outcome = .running ∧
    (start ⟨"h", 5432, "db", "u", "pw", "/backups", 3600, 7, "custom", "", ""⟩
        false false [false, true]).events = [] ∧
    (start ⟨"h", 5432, "db", "u", "pw", "/backups", 3600, 7, "custom", "", ""⟩
        false false [false, true]).outcome =
      .errored "failed to create output directory" :=
  start_loop_structure _ _ _ _ rfl (by decide)

/-! ## Claim C9: non-positive frequency panics after the first cycle -/

/-- Claim C9: `loadConfig` applies no default to the frequency, so a
configuration that omits it (zero value) or sets it non-positive
reaches `time.NewTicker` unchanged; `Start` then panics constructing
the ticker — after the output directory has been created and the
initial backup cycle has run. -/
theorem nonpositive_frequency_panics (c : Config) (initOk : Bool)
    (cycles : List Bool) (hf : c.frequency ≤ 0) :
    (applyDefaults c).frequency = c.frequency ∧
    (start (applyDefaults c) true initOk cycles).events =
      [.ensuredDir, .initialCycle initOk] ∧
    (start (applyDefaults c) true initOk cycles).outcome = .panicked := by
  refine ⟨rfl, ?_, ?_⟩ <;> simp [start, applyDefaults, hf]

/-- Claim C9 witness: a configuration omitting the frequency (zero
value) panics at ticker construction after the directory step and the
initial cycle. -/
theorem nonpositive_frequency_panics_witness :
    (applyDefaults
        ⟨"h", 5432, "db", "u", "pw", "/backups", 0, 7, "custom", "", ""⟩).frequency =
      (⟨"h", 5432, "db", "u", "pw", "/backups", 0, 7, "custom", "", ""⟩ :
        Config).frequency ∧
    (start (applyDefaults
        ⟨"h", 5432, "db", "u", "pw", "/backups", 0, 7, "custom", "", ""⟩)
        true true [true]).events = [.ensuredDir, .initialCycle true] ∧
    (start (applyDefaults
        ⟨"h", 5432, "db", "u", "pw", "/backups", 0, 7, "custom", "", ""⟩)
        true true [true]).outcome = .panicked :=
  nonpositive_frequency_panics _ _ _ (by decide)

/-! ## Claim C7: filenames sort in chronological order -/

/-- Lexicographic order is preserved by appending arbitrary suffixes to
two lists of equal length that already compare. -/
theorem lex_of_lex_append {α : Type} {r : α → α → Prop}
    {a1 a2 b1 b2 : List α} (h : List.Lex r a1 a2)
    (hlen : a1.length = a2.length) : List.Lex r (a1 ++ b1) (a2 ++ b2) := by
  induction h with
  | nil => simp at hlen
  | cons _ ih => exact List.Lex.cons (ih (by simpa using hlen))
  | rel hr => exact List.Lex.rel hr

/-- Lexicographic order is preserved by prepending a common prefix. -/
theorem lex_append_left_cancel {α : Type} {r : α → α → Prop}
    (p : List α) {b1 b2 : List α} (h : List.Lex r b1 b2) :
    List.Lex r (p ++ b1) (p ++ b2) := by
  induction p with
  | nil => exact h
  | cons x xs ih => exact List.Lex.cons ih

/-- `Nat.digitChar` is strictly monotone on decimal digits. -/
theorem digitChar_lt_digitChar :
    ∀ b : Nat, b ≤ 9 → ∀ a : Nat, a < b →
      Nat.digitChar a < Nat.digitChar b := by decide

/-- Two-digit zero-padded rendering is strictly monotone below 100. -/
theorem pad2_lt {m n : Nat} (hn : n ≤ 99) (h : m < n) :
    List.Lex (· < ·) (pad2 m) (pad2 n) := by
  by_cases hd : m / 10 = n / 10
  · have h2 : m % 10 < n % 10 := by omega
    simp only [pad2]
    rw [hd]
    exact List.Lex.cons (List.Lex.rel (digitChar_lt_digitChar _ (by omega) _ h2))
  · have h1 : m / 10 < n / 10 := by omega
    simp only [pad2]
    exact List.Lex.rel (digitChar_lt_digitChar _ (by omega) _ h1)

/-- Four-digit zero-padded rendering is strictly monotone below
10000. -/
theorem pad4_lt {m n : Nat} (hn : n ≤ 9999) (h : m < n) :
    List.Lex (· < ·) (pad4 m) (pad4 n) := by
  by_cases hd : m / 100 = n / 100
  · have h2 : m % 100 < n % 100 := by omega
    simp only [pad4]
    rw [hd]
    exact lex_append_left_cancel _ (pad2_lt (by omega) h2)
  · have h1 : m / 100 < n / 100 := by omega
    simp only [pad4]
    exact lex_of_lex_append (pad2_lt (by omega) h1) rfl

/-- The `YYYY-MM-DD_HH-MM-SS` rendering is strictly monotone in
chronological order on valid instants. -/
theorem timestamp_preserves_order {t1 t2 : DateTime} (_h1 : t1.Valid)
    (h2 : t2.Valid) (h : t1.chronLT t2) :
    List.Lex (· < ·) (timestampChars t1) (timestampChars t2) := by
  obtain ⟨hy2, _, hmo2, _, hd2, hh2, hmi2, hs2⟩ := h2
  simp only [timestampChars]
  rcases h with hy | ⟨ey, h⟩
  · exact lex_of_lex_append (pad4_lt hy2 hy) rfl
  · rw [ey]
    refine lex_append_left_cancel _ (List.Lex.cons ?_)
    rcases h with hmo | ⟨emo, h⟩
    · exact lex_of_lex_append (pad2_lt (by omega) hmo) rfl
    · rw [emo]
      refine lex_append_left_cancel _ (List.Lex.cons ?_)
      rcases h with hda | ⟨eda, h⟩
      · exact lex_of_lex_append (pad2_lt (by omega) hda) rfl
      · rw [eda]
        refine lex_append_left_cancel _ (List.Lex.cons ?_)
        rcases h with hho | ⟨eho, h⟩
        · exact lex_of_lex_append (pad2_lt (by omega) hho) rfl
        · rw [eho]
          refine lex_append_left_cancel _ (List.Lex.cons ?_)
          rcases h with hmi | ⟨emi, h⟩
          · exact lex_of_lex_append (pad2_lt (by omega) hmi) rfl
          · rw [emi]
            refine lex_append_left_cancel _ (List.Lex.cons ?_)
            exact pad2_lt (by omega) h

/-- The timestamp rendering always has 19 characters. -/
theorem timestampChars_length (t : DateTime) :
    (timestampChars t).length = 19 := by
  simp [timestampChars, pad4, pad2]

/-- Claim C7: for every database name and timestamps `t1` earlier than
`t2` (one-second granularity), the artifact filenames generated for the
same database (and same format extension) at `t1` and `t2` sort
lexicographically in chronological order. -/
theorem filename_order_matches_time_order (db ext : String)
    {t1 t2 : DateTime} (h1 : t1.Valid) (h2 : t2.Valid)
    (h : t1.chronLT t2) :
    backupFilename db t1 ext < backupFilename db t2 ext := by
  rw [String.lt_iff_toList_lt]
  have key : ∀ t : DateTime, (backupFilename db t ext).toList =
      db.toList ++ '_' :: (timestampChars t ++ ext.toList) := by
    intro t
    simp [backupFilename, goTimestamp, String.toList, String.data_append]
  rw [key t1, key t2]
  exact lex_append_left_cancel _ (List.Lex.cons
    (lex_of_lex_append (timestamp_preserves_order h1 h2 h)
      (by rw [timestampChars_length, timestampChars_length])))

/-- Claim C7 witness: one day apart, the generated filenames compare in
time order. -/
theorem filename_order_matches_time_order_witness :
    (⟨2024, 3, 1, 0, 0, 0⟩ : DateTime).Valid ∧
    (⟨2024, 3, 2, 0, 0, 0⟩ : DateTime).Valid ∧
    DateTime.chronLT ⟨2024, 3, 1, 0, 0, 0⟩ ⟨2024, 3, 2, 0, 0, 0⟩ ∧
    backupFilename "db" ⟨2024, 3, 1, 0, 0, 0⟩ ".dump" <
      backupFilename "db" ⟨2024, 3, 2, 0, 0, 0⟩ ".dump" :=
  ⟨by decide, by decide, by decide,
   filename_order_matches_time_order "db" ".dump"
     (by decide) (by decide) (by decide)⟩

end Beackup
